import Mathlib

/-!
Shallow embedding of the flight-tracking service implemented in
`src/app.py` (Flask handlers over two MongoDB collections).

Conventions of the embedding:

* A MongoDB collection is a list of documents in insertion order;
  `find_one(q)` is `List.find?`, `insert_one` appends at the end,
  `update_one` rewrites the first matching document, `delete_one`
  removes the first matching document, and an unindexed `find(q)` is
  `List.filter` in insertion order.
* JSON numbers are rationals.  Python's `float(v)` either succeeds
  (the value is numeric-coercible) or raises `ValueError`; an exception
  raised inside a handler is caught by the handler's blanket `except`
  and becomes an HTTP 500 response.
* `datetime.utcnow()` is modelled as a `Nat` tick supplied by the caller.
-/

namespace FlightTracker

/-- One timestamped telemetry sample: the `position_update` dict built in
`ingest_flight_data` (lines 72-79 of `app.py`). -/
structure PositionSample where
  latitude : ℚ
  longitude : ℚ
  altitude : ℚ
  speed : ℚ
  heading : ℚ
  timestamp : String
  deriving Repr, DecidableEq, Inhabited

/-- A JSON value sitting in a numeric slot of the request body.
Python's `float(v)` succeeds exactly on numeric-coercible values and
raises `ValueError` otherwise; `nonNumeric` stands for the values
`float` rejects (parsing of numeric strings is not needed by any claim
and is not modelled). -/
inductive JNum where
  | num (x : ℚ)
  | nonNumeric (s : String)
  deriving Repr, DecidableEq

/-- Result of Python's `float(v)` on a request value: `none` means the
conversion raises `ValueError`. -/
def JNum.toFloat? : JNum → Option ℚ
  | .num x => some x
  | .nonNumeric _ => none

/-- A document of the `active_flights` collection (the `flight_doc`
shape created at lines 98-105 of `app.py`). -/
structure ActiveFlight where
  flight_number : String
  status : String
  current_position : PositionSample
  position_history : List PositionSample
  created_at : Nat
  last_update : Nat
  deriving Repr, DecidableEq, Inhabited

/-- A document of the `flight_logs` collection (the `log_entry` shape
created at lines 114-120 of `app.py`). -/
structure FlightLog where
  flight_number : String
  position_history : List PositionSample
  flight_start : Nat
  flight_end : Nat
  total_positions : Nat
  deriving Repr, DecidableEq, Inhabited

/-- The database state: the two collections `active_flights` (FLYING)
and `flight_logs` (COMPLETED), each in insertion order. -/
structure DB where
  active_flights : List ActiveFlight
  flight_logs : List FlightLog
  deriving Repr, DecidableEq, Inhabited

/-- The JSON body of a `POST /api/flights/ingest` request, restricted to
the keys the handler reads.  `none` models an absent key (`field not in
data`); the numeric slots carry `JNum` values that `float()` may reject.
All modelled scenarios carry string flight numbers, timestamps and
statuses, as every request produced by the repository does. -/
structure IngestRequest where
  flight_number : Option String
  latitude : Option JNum
  longitude : Option JNum
  altitude : Option JNum
  speed : Option JNum
  heading : Option JNum
  timestamp : Option String
  status : Option String
  deriving Repr, DecidableEq, Inhabited

/-- HTTP outcome of the ingest handler: `ok` is the 200 response with
its `message` and `flight_number` fields, `badRequest` the 400 response
from the required-field loop, `serverError` the 500 response produced
when the blanket `except Exception` catches a raised error. -/
inductive IngestOutcome where
  | ok (message : String) (flight_number : String)
  | badRequest (error : String)
  | serverError
  deriving Repr, DecidableEq

/-- Whether an ingest outcome is the 400 `ValidationError`-style
response. -/
def IngestOutcome.isBadRequest : IngestOutcome → Bool
  | .badRequest _ => true
  | _ => false

/-- The `required_fields` presence loop (lines 60-67 of `app.py`):
returns the first missing required field in the source's order, or
`none` when all are present. -/
def requiredMissing? (r : IngestRequest) : Option String :=
  if r.flight_number.isNone then some "flight_number"
  else if r.latitude.isNone then some "latitude"
  else if r.longitude.isNone then some "longitude"
  else if r.altitude.isNone then some "altitude"
  else if r.speed.isNone then some "speed"
  else if r.timestamp.isNone then some "timestamp"
  else none

/-- Construction of the `position_update` dict (lines 72-79 of
`app.py`): each numeric field goes through `float()`, `heading`
defaulting to `0` when absent; `none` models a raised `ValueError`. -/
def mkSample? (r : IngestRequest) : Option PositionSample :=
  match r.latitude, r.longitude, r.altitude, r.speed, r.timestamp with
  | some la, some lo, some al, some sp, some ts =>
    match la.toFloat?, lo.toFloat?, al.toFloat?, sp.toFloat?,
          ((r.heading.getD (JNum.num 0)).toFloat?) with
    | some la, some lo, some al, some sp, some hd =>
      some { latitude := la, longitude := lo, altitude := al,
             speed := sp, heading := hd, timestamp := ts }
    | _, _, _, _, _ => none
  | _, _, _, _, _ => none

/-- Rewrite the first element satisfying `p`, leaving the rest alone:
Mongo's `update_one`. -/
def updateFirst (p : α → Bool) (g : α → α) : List α → List α
  | [] => []
  | x :: xs => if p x then g x :: xs else x :: updateFirst p g xs

/-- Remove the first element satisfying `p`: Mongo's `delete_one`. -/
def deleteFirst (p : α → Bool) : List α → List α
  | [] => []
  | x :: xs => if p x then xs else x :: deleteFirst p xs

/-- The `update_one` payload of lines 85-95 of `app.py`: `$push` the
sample onto `position_history`, `$set` `current_position`,
`last_update` and `status`. -/
def updActive (pos : PositionSample) (now : Nat) (st : String)
    (f : ActiveFlight) : ActiveFlight :=
  { f with position_history := f.position_history ++ [pos],
           current_position := pos, last_update := now, status := st }

/-- The "check if flight already exists" upsert of lines 81-106 of
`app.py`: `update_one` with `$push`/`$set` when a document for `fn`
exists, `insert_one` of the fresh `flight_doc` otherwise. -/
def upsertActive (db : DB) (fn : String) (pos : PositionSample) (now : Nat)
    (st : String) : DB :=
  match db.active_flights.find? (fun f => f.flight_number == fn) with
  | some _ =>
    let act := updateFirst (fun f => f.flight_number == fn)
      (updActive pos now st) db.active_flights
    { db with active_flights := act }
  | none =>
    { db with active_flights := db.active_flights ++
        [{ flight_number := fn, status := st, current_position := pos,
           position_history := [pos], created_at := now,
           last_update := now }] }

/-- The "check if flight has landed" block of lines 108-129 of
`app.py`: read the document back, insert the `log_entry` into
`flight_logs`, delete the document from `active_flights`. -/
def archiveIfLanded (db1 : DB) (fn : String) (now : Nat) :
    DB × IngestOutcome :=
  match db1.active_flights.find? (fun f => f.flight_number == fn) with
  | some fd =>
    ({ active_flights :=
         deleteFirst (fun f => f.flight_number == fn) db1.active_flights,
       flight_logs := db1.flight_logs ++
         [{ flight_number := fn,
            position_history := fd.position_history,
            flight_start := fd.created_at,
            flight_end := now,
            total_positions := fd.position_history.length }] },
     .ok "Flight landed and moved to logs" fn)
  | none => (db1, .ok "Flight data ingested successfully" fn)

/-- The `POST /api/flights/ingest` handler `ingest_flight_data`
(lines 55-137 of `app.py`): validate presence of the required fields,
build the position update, upsert the active document, then, when the
request status is the terminal marker `landed`, move the document into
`flight_logs` and delete it from `active_flights`. -/
def ingest_flight_data (db : DB) (r : IngestRequest) (now : Nat) :
    DB × IngestOutcome :=
  match requiredMissing? r with
  | some f => (db, .badRequest ("Missing required field: " ++ f))
  | none =>
    match mkSample? r with
    | none => (db, .serverError)
    | some pos =>
      let fn := r.flight_number.getD ""
      let db1 := upsertActive db fn pos now (r.status.getD "in_flight")
      if r.status == some "landed" then archiveIfLanded db1 fn now
      else (db1, .ok "Flight data ingested successfully" fn)

/-- Outcome of the `GET /api/flights/track/<flight_number>` handler:
`view` is the full tracking response of lines 195-201 of `app.py`
(status, current position, history, `total_updates`), `positionAt` the
point-in-time response of lines 184-188, `notFound` a 404 whose error
string distinguishes the two failure reasons. -/
inductive TrackResult where
  | view (flight_number : String) (status : String)
      (current_position : Option PositionSample)
      (position_history : List PositionSample) (total_updates : Nat)
  | positionAt (flight_number : String) (timestamp : String)
      (position : PositionSample)
  | notFound (error : String)
  deriving Repr, DecidableEq

/-- Steps 1-2 of `track_flight` (lines 161-170 of `app.py`): look the id
up in `active_flights` first, fall back to `flight_logs` and overwrite
the document's status with `completed`.  The result carries the fields
the rest of the handler reads: status, `current_position` (`flight.get`
returns `None` on a log document, which has no such key), and the
history. -/
def lookupFlight (db : DB) (flight_number : String) :
    Option (String × Option PositionSample × List PositionSample) :=
  match db.active_flights.find? (fun f => f.flight_number == flight_number) with
  | some f => some (f.status, some f.current_position, f.position_history)
  | none =>
    match db.flight_logs.find? (fun lg => lg.flight_number == flight_number) with
    | some lg => some ("completed", none, lg.position_history)
    | none => none

/-- Python truthiness of the optional `timestamp` query argument, the
`if timestamp:` test at line 175 of `app.py`: `request.args.get`
returns `None` when the parameter is absent, and both `None` and the
empty string are falsy. -/
def truthyArg : Option String → Bool
  | none => false
  | some t => !(t == "")

/-- The `GET /api/flights/track/<flight_number>` handler `track_flight`
(lines 141-206 of `app.py`).  A truthy `timestamp` query argument
selects the first history sample whose stored timestamp string equals
it exactly (the for-loop with `break` at lines 177-181 is
`List.find?`); an absent or empty timestamp falls through to the full
tracking view. -/
def track_flight (db : DB) (flight_number : String)
    (timestamp : Option String) : TrackResult :=
  match lookupFlight db flight_number with
  | none => .notFound "Flight not found"
  | some (st, cur, hist) =>
    if truthyArg timestamp then
      let t := timestamp.getD ""
      match hist.find? (fun p => p.timestamp == t) with
      | some p => .positionAt flight_number t p
      | none => .notFound "No position data for that timestamp"
    else .view flight_number st cur hist hist.length

/-- The `GET /api/flights/logs` handler `get_flight_logs` (lines
229-246 of `app.py`): it reads no query parameter at all and returns
`flight_logs.find().limit(50)` together with the count of the returned
list.  `args` models `request.args`; the handler ignores it. -/
def get_flight_logs (db : DB) (args : List (String × String)) :
    List FlightLog × Nat :=
  let logs := db.flight_logs.take 50
  (logs, logs.length)

/-- Python's `str.strip()` applied to a query argument: drop the ASCII
whitespace characters (space, tab, newline, carriage return, vertical
tab, form feed) from both ends. -/
def stripWS (s : String) : String :=
  let ws := fun c : Char => c == ' ' || c == '\t' || c == '\n' || c == '\r'
    || c == Char.ofNat 11 || c == Char.ofNat 12
  ⟨((s.data.dropWhile ws).reverse.dropWhile ws).reverse⟩

/-- The PCRE regex metacharacters: the criterion characters that carry
special meaning inside Mongo's `$regex` pattern. -/
def regexMetachars : List Char :=
  ['.', '*', '+', '?', '^', '$', '(', ')', '[', ']',
   Char.ofNat 123, Char.ofNat 125, '|', '\\']

/-- A criterion string inside the modelled regex fragment: every
character is either the `.` wildcard or a literal (no other PCRE
metacharacter).  On this fragment the matcher below agrees with the
program's regex engine; theorems about the search quantify over it. -/
def modelledPattern (pat : String) : Prop :=
  ∀ c ∈ pat.data, c = '.' ∨ c ∉ regexMetachars

instance instDecModelledPattern (pat : String) :
    Decidable (modelledPattern pat) := by
  unfold modelledPattern
  exact inferInstance

/-- Character-level step of the Mongo `$regex` match with `$options: i`
used by `hybrid_search`, on the modelled fragment: the metacharacter
`.` matches any character except the newline (PCRE default), a literal
matches case-insensitively (ASCII folding, as PCRE's `i` without UTF
mode).  Other metacharacters are outside the fragment. -/
def charMatch (pc c : Char) : Bool :=
  if pc = '.' then !(c == '\n') else pc.toLower == c.toLower

/-- Whether the pattern matches a prefix of the text, character by
character. -/
def matchHere : List Char → List Char → Bool
  | [], _ => true
  | _ :: _, [] => false
  | pc :: ps, c :: cs => charMatch pc c && matchHere ps cs

/-- All suffixes of a list, longest first. -/
def allSuffixes : List Char → List (List Char)
  | [] => [[]]
  | c :: cs => (c :: cs) :: allSuffixes cs

/-- Unanchored case-insensitive regex search: Mongo's
`{$regex: pat, $options: i}` applied to the string `s`, restricted to
the modelled pattern fragment (literals and the `.` metacharacter). -/
def regexFind (pat s : String) : Bool :=
  (allSuffixes s.data).any (fun t => matchHere pat.data t)

/-- Case-insensitive prefix test on character lists, used only to state
the spec's notion of matching. -/
def ciPrefixB : List Char → List Char → Bool
  | [], _ => true
  | _ :: _, [] => false
  | a :: as, b :: bs => (a.toLower == b.toLower) && ciPrefixB as bs

/-- Modelled from the spec: the spec's claimed id-criterion semantics,
"case-insensitive substring match against id" with every criterion
character taken literally.  Stated here only to be compared with the
source's `regexFind`. -/
def isCISubstringB (pat s : String) : Bool :=
  (allSuffixes s.data).any (fun t => ciPrefixB pat.data t)

/-- The query parameters the `hybrid_search` handler reads from
`request.args`; `none` models an absent parameter.  The numeric
parameters go through `float()`, so — exactly as for the ingest body's
numeric fields — they are modelled by the `JNum` abstraction: the value
`float()` extracts when it succeeds, or the fact that it raises
`ValueError`; Python's float-literal syntax itself is not
re-modelled. -/
structure SearchArgs where
  flight_number : Option String
  status : Option String
  min_altitude : Option JNum
  max_altitude : Option JNum
  min_speed : Option JNum
  max_speed : Option JNum
  deriving Repr, DecidableEq, Inhabited

/-- Evaluate `float()` on an optional numeric query parameter: an
absent parameter is fine (`some none`), a present one must be
numeric-coercible (`none` models the raised `ValueError`). -/
def parseArg? : Option JNum → Option (Option ℚ)
  | none => some none
  | some v => v.toFloat?.map some

/-- The Mongo query document `hybrid_search` builds over
`active_flights` (lines 271-309 of `app.py`): an optional
case-insensitive regex on `flight_number`, an optional exact `status`,
and optional inclusive bounds on `current_position.altitude` and
`current_position.speed`. -/
structure ActiveQuery where
  fn_regex : Option String
  status_eq : Option String
  alt_gte : Option ℚ
  alt_lte : Option ℚ
  spd_gte : Option ℚ
  spd_lte : Option ℚ
  deriving Repr, DecidableEq

/-- Mongo's evaluation of the built query document against one active
document: every present clause must hold (conjunction). -/
def evalActiveQuery (q : ActiveQuery) (f : ActiveFlight) : Bool :=
  (match q.fn_regex with
   | none => true
   | some pat => regexFind pat f.flight_number) &&
  (match q.status_eq with
   | none => true
   | some st => f.status == st) &&
  (match q.alt_gte with
   | none => true
   | some m => decide (m ≤ f.current_position.altitude)) &&
  (match q.alt_lte with
   | none => true
   | some m => decide (f.current_position.altitude ≤ m)) &&
  (match q.spd_gte with
   | none => true
   | some m => decide (m ≤ f.current_position.speed)) &&
  (match q.spd_lte with
   | none => true
   | some m => decide (f.current_position.speed ≤ m))

/-- One entry of the `results` list of `hybrid_search`: either an
active document, or a log document with the `status` key the handler
adds before appending it. -/
inductive SearchHit where
  | active (f : ActiveFlight)
  | archived (lg : FlightLog) (status : String)
  deriving Repr, DecidableEq

/-- HTTP outcome of `hybrid_search`: the 200 response with its
`results` and `count` fields, or the 400 response produced when a
numeric parameter raises `ValueError` (lines 341-345 of `app.py`). -/
inductive SearchOutcome where
  | ok (results : List SearchHit) (count : Nat)
  | badRequest
  deriving Repr, DecidableEq

/-- The `GET /api/flights/search` handler `hybrid_search` (lines
253-350 of `app.py`): build the query document clause by clause (each
`float()` may raise, turning the whole call into a 400), evaluate it
over `active_flights`, and, when the `status` parameter is absent or
equal to `completed`, also scan `flight_logs` with only the
`flight_number` regex, tagging each log hit with status `completed` and
appending the log hits after the active hits. -/
def hybrid_search (db : DB) (args : SearchArgs) : SearchOutcome :=
  match parseArg? args.min_altitude, parseArg? args.max_altitude,
        parseArg? args.min_speed, parseArg? args.max_speed with
  | some minAlt, some maxAlt, some minSpd, some maxSpd =>
    let q : ActiveQuery :=
      { fn_regex := args.flight_number.map stripWS,
        status_eq := args.status,
        alt_gte := minAlt, alt_lte := maxAlt,
        spd_gte := minSpd, spd_lte := maxSpd }
    let results := (db.active_flights.filter (evalActiveQuery q)).map .active
    let results :=
      if args.status.isNone || (args.status == some "completed") then
        let logsMatch (lg : FlightLog) : Bool :=
          match args.flight_number.map stripWS with
          | none => true
          | some pat => regexFind pat lg.flight_number
        results ++ (db.flight_logs.filter logsMatch).map
          (fun lg => .archived lg "completed")
      else results
    .ok results results.length
  | _, _, _, _ => .badRequest

/-- The flight numbers currently in the Active set. -/
def activeIds (db : DB) : List String :=
  db.active_flights.map (fun f => f.flight_number)

/-- The sample a valid request carries (the value inside `mkSample?`). -/
def sampleOf (r : IngestRequest) : PositionSample :=
  (mkSample? r).getD default

/-- A valid non-terminal ingest call for `id`: the id is present and
equal to `id`, every required field is present, every numeric field is
coercible, and the status is not the terminal marker. -/
def validNT (id : String) (c : IngestRequest × Nat) : Prop :=
  c.1.flight_number = some id ∧ requiredMissing? c.1 = none ∧
    (mkSample? c.1).isSome ∧ c.1.status ≠ some "landed"

instance instDecValidNT (id : String) (c : IngestRequest × Nat) :
    Decidable (validNT id c) := by
  unfold validNT
  exact inferInstance

/-- Run a sequence of ingest calls, threading the database state. -/
def runIngests (db : DB) (calls : List (IngestRequest × Nat)) : DB :=
  calls.foldl (fun d c => (ingest_flight_data d c.1 c.2).1) db

/-- Fold of the per-call `$push`/`$set` update over an active document. -/
def applyCalls (F : ActiveFlight) (calls : List (IngestRequest × Nat)) :
    ActiveFlight :=
  calls.foldl
    (fun G c => updActive (sampleOf c.1) c.2 (c.1.status.getD "in_flight") G) F

lemma find?_fn_eq_none {l : List ActiveFlight} {id : String}
    (h : ∀ f ∈ l, f.flight_number ≠ id) :
    l.find? (fun f => f.flight_number == id) = none := by
  rw [List.find?_eq_none]
  intro x hx
  simpa using h x hx

lemma updActive_flight_number (pos : PositionSample) (now : Nat) (st : String)
    (f : ActiveFlight) : (updActive pos now st f).flight_number = f.flight_number :=
  rfl

lemma updateFirst_map_fn {g : ActiveFlight → ActiveFlight}
    (hg : ∀ f, (g f).flight_number = f.flight_number)
    (p : ActiveFlight → Bool) :
    ∀ l : List ActiveFlight,
      (updateFirst p g l).map (fun f => f.flight_number)
        = l.map (fun f => f.flight_number)
  | [] => rfl
  | x :: xs => by
    by_cases hx : p x
    · simp [updateFirst, hx, hg]
    · simp [updateFirst, hx, updateFirst_map_fn hg p xs]

lemma find?_updateFirst {g : ActiveFlight → ActiveFlight}
    (hg : ∀ f, (g f).flight_number = f.flight_number) (id : String) :
    ∀ l : List ActiveFlight,
      (updateFirst (fun f => f.flight_number == id) g l).find?
          (fun f => f.flight_number == id)
        = (l.find? (fun f => f.flight_number == id)).map g
  | [] => rfl
  | x :: xs => by
    by_cases hx : x.flight_number = id
    · simp [updateFirst, hx, hg]
    · simp [updateFirst, hx, find?_updateFirst hg id xs]

lemma mem_deleteFirst {p : α → Bool} {a : α} :
    ∀ {l : List α}, a ∈ deleteFirst p l → a ∈ l
  | [], h => by simp [deleteFirst] at h
  | x :: xs, h => by
    by_cases hx : p x
    · simp only [deleteFirst, if_pos hx] at h
      exact List.mem_cons_of_mem x h
    · simp only [deleteFirst, if_neg hx, List.mem_cons] at h
      rcases h with h | h
      · exact h ▸ List.mem_cons_self x xs
      · exact List.mem_cons_of_mem x (mem_deleteFirst h)

lemma find?_deleteFirst_eq_none (id : String) :
    ∀ {l : List ActiveFlight},
      (l.map (fun f => f.flight_number)).Nodup →
      (deleteFirst (fun f => f.flight_number == id) l).find?
        (fun f => f.flight_number == id) = none
  | [], _ => rfl
  | x :: xs, hnd => by
    rw [List.map_cons, List.nodup_cons] at hnd
    by_cases hx : x.flight_number = id
    · simp only [deleteFirst, hx, beq_self_eq_true, if_pos]
      refine find?_fn_eq_none fun f hf hfid => hnd.1 ?_
      rw [← hx] at hfid
      exact hfid ▸ List.mem_map_of_mem (fun f => f.flight_number) hf
    · have : (x.flight_number == id) = false := by simpa using hx
      simp only [deleteFirst, this, Bool.false_eq_true, if_neg, not_false_iff]
      rw [List.find?_cons_of_neg _ (by simpa using hx)]
      exact find?_deleteFirst_eq_none id hnd.2

lemma updateFirst_append_singleton {p : α → Bool} {g : α → α} {x : α}
    (hx : p x = true) :
    ∀ {l : List α}, (∀ y ∈ l, p y = false) →
      updateFirst p g (l ++ [x]) = l ++ [g x]
  | [], _ => by simp [updateFirst, hx]
  | y :: ys, h => by
    have hy : p y = false := h y (List.mem_cons_self y ys)
    simp only [List.cons_append, updateFirst, hy, Bool.false_eq_true, if_neg,
      not_false_iff, List.cons.injEq, true_and]
    exact updateFirst_append_singleton hx
      (fun z hz => h z (List.mem_cons_of_mem y hz))

lemma find?_append_singleton_of_none {p : α → Bool} {x : α}
    {l : List α} (h : l.find? p = none) (hx : p x = true) :
    (l ++ [x]).find? p = some x := by
  rw [List.find?_append, h, Option.none_or, List.find?_cons_of_pos _ hx]

/-- Evaluation of one valid non-terminal ingest call against a state
whose Active set is `pre ++ [F]` with `F` the only document for `id`:
the call rewrites `F` in place and touches nothing else. -/
lemma ingest_step_nonterminal (pre : List ActiveFlight) (F : ActiveFlight)
    (logs : List FlightLog) (id : String) (r : IngestRequest) (now : Nat)
    (hpre : ∀ f ∈ pre, f.flight_number ≠ id)
    (hF : F.flight_number = id)
    (hv : validNT id (r, now)) :
    ingest_flight_data ⟨pre ++ [F], logs⟩ r now
      = (⟨pre ++ [updActive (sampleOf r) now (r.status.getD "in_flight") F], logs⟩,
         .ok "Flight data ingested successfully" id) := by
  have hfn : r.flight_number = some id := hv.1
  have hmiss : requiredMissing? r = none := hv.2.1
  have hnt : r.status ≠ some "landed" := hv.2.2.2
  obtain ⟨s, hs⟩ := Option.isSome_iff_exists.mp (hv.2.2.1 :
    (mkSample? r).isSome)
  have hsampleOf : sampleOf r = s := by simp [sampleOf, hs]
  have hfind : (pre ++ [F]).find? (fun f => f.flight_number == id) = some F :=
    find?_append_singleton_of_none (find?_fn_eq_none hpre) (by simpa using hF)
  have hupd : updateFirst (fun f => f.flight_number == id)
      (updActive s now (r.status.getD "in_flight")) (pre ++ [F])
      = pre ++ [updActive s now (r.status.getD "in_flight") F] :=
    updateFirst_append_singleton (by simpa using hF)
      (fun y hy => by simpa using hpre y hy)
  have hland : (r.status == some "landed") = false := by simpa using hnt
  simp only [ingest_flight_data, upsertActive, hmiss, hs, hfn,
    Option.getD_some, hfind, hupd, hland, Bool.false_eq_true, if_neg,
    not_false_iff, hsampleOf]

/-- Evaluation of one valid non-terminal ingest call for an id absent
from the Active set: a fresh document is appended at the end. -/
lemma ingest_step_fresh (act : List ActiveFlight) (logs : List FlightLog)
    (id : String) (r : IngestRequest) (now : Nat)
    (hact : ∀ f ∈ act, f.flight_number ≠ id)
    (hv : validNT id (r, now)) :
    ingest_flight_data ⟨act, logs⟩ r now
      = (⟨act ++ [{ flight_number := id, status := r.status.getD "in_flight",
                    current_position := sampleOf r,
                    position_history := [sampleOf r],
                    created_at := now, last_update := now }], logs⟩,
         .ok "Flight data ingested successfully" id) := by
  have hfn : r.flight_number = some id := hv.1
  have hmiss : requiredMissing? r = none := hv.2.1
  have hnt : r.status ≠ some "landed" := hv.2.2.2
  obtain ⟨s, hs⟩ := Option.isSome_iff_exists.mp (hv.2.2.1 :
    (mkSample? r).isSome)
  have hsampleOf : sampleOf r = s := by simp [sampleOf, hs]
  have hfind : act.find? (fun f => f.flight_number == id) = none :=
    find?_fn_eq_none hact
  have hland : (r.status == some "landed") = false := by simpa using hnt
  simp only [ingest_flight_data, upsertActive, hmiss, hs, hfn,
    Option.getD_some, hfind, hland, Bool.false_eq_true, if_neg,
    not_false_iff, hsampleOf]

/-- C1.  For every id with an ActiveEntity holding N samples in its
history, a valid ingest call for that id whose status equals the
terminal marker `landed` removes the id from the Active set and
appends exactly one entry to the Archive whose `total_positions` is
N+1, whose `flight_start` is the entity's `created_at`, whose
`position_history` is the entity's history (terminal sample included),
and whose `flight_end` is the transition instant. -/
theorem landed_ingest_archives (db : DB) (r : IngestRequest) (now : Nat)
    (id : String) (F : ActiveFlight) (s : PositionSample)
    (hnodup : (activeIds db).Nodup)
    (hfind : db.active_flights.find? (fun f => f.flight_number == id) = some F)
    (hfn : r.flight_number = some id)
    (hst : r.status = some "landed")
    (hmiss : requiredMissing? r = none)
    (hsample : mkSample? r = some s) :
    (ingest_flight_data db r now).1.active_flights.find?
        (fun f => f.flight_number == id) = none
    ∧ (ingest_flight_data db r now).1.flight_logs = db.flight_logs ++
        [{ flight_number := id,
           position_history := F.position_history ++ [s],
           flight_start := F.created_at,
           flight_end := now,
           total_positions := F.position_history.length + 1 }]
    ∧ (ingest_flight_data db r now).2
        = .ok "Flight landed and moved to logs" id := by
  have hgfn : ∀ f, (updActive s now (r.status.getD "in_flight") f).flight_number
      = f.flight_number := fun f => rfl
  have hupdfind := find?_updateFirst hgfn id db.active_flights
  rw [hfind] at hupdfind
  have hland : (r.status == some "landed") = true := by simp [hst]
  have hnodup1 : ((updateFirst (fun f => f.flight_number == id)
      (updActive s now (r.status.getD "in_flight"))
      db.active_flights).map (fun f => f.flight_number)).Nodup := by
    rw [updateFirst_map_fn hgfn]
    exact hnodup
  have hdel := find?_deleteFirst_eq_none id hnodup1
  simp only [ingest_flight_data, upsertActive, archiveIfLanded, hmiss,
    hsample, hfn, Option.getD_some, hfind, hupdfind, hland, if_pos,
    Option.map_some']
  refine ⟨hdel, ?_, trivial⟩
  simp [updActive]

lemma applyCalls_flight_number :
    ∀ (calls : List (IngestRequest × Nat)) (F : ActiveFlight),
      (applyCalls F calls).flight_number = F.flight_number
  | [], _ => rfl
  | c :: cs, F => by
    simp only [applyCalls, List.foldl_cons]
    exact applyCalls_flight_number cs _

lemma applyCalls_history :
    ∀ (calls : List (IngestRequest × Nat)) (F : ActiveFlight),
      (applyCalls F calls).position_history
        = F.position_history ++ calls.map (fun c => sampleOf c.1)
  | [], F => by simp [applyCalls]
  | c :: cs, F => by
    simp only [applyCalls, List.foldl_cons, List.map_cons]
    rw [show (List.foldl
        (fun G c => updActive (sampleOf c.1) c.2 (c.1.status.getD "in_flight") G)
        (updActive (sampleOf c.1) c.2 (c.1.status.getD "in_flight") F) cs)
      = applyCalls (updActive (sampleOf c.1) c.2 (c.1.status.getD "in_flight") F) cs
      from rfl]
    rw [applyCalls_history cs]
    simp [updActive]

lemma applyCalls_current_last :
    ∀ (calls : List (IngestRequest × Nat)) (F : ActiveFlight),
      F.position_history.getLast? = some F.current_position →
      (applyCalls F calls).position_history.getLast?
        = some (applyCalls F calls).current_position
  | [], F, h => h
  | c :: cs, F, h => by
    simp only [applyCalls, List.foldl_cons]
    exact applyCalls_current_last cs _ (by simp [updActive, List.getLast?_concat])

/-- Folding a list of valid non-terminal ingest calls for `id` over a
state whose Active set is `pre ++ [F]`, with `F` the only document for
`id`, rewrites `F` in place and touches nothing else. -/
lemma runIngests_shape {id : String} :
    ∀ (calls : List (IngestRequest × Nat)) (pre : List ActiveFlight)
      (F : ActiveFlight) (logs : List FlightLog),
      (∀ c ∈ calls, validNT id c) →
      (∀ f ∈ pre, f.flight_number ≠ id) →
      F.flight_number = id →
      runIngests ⟨pre ++ [F], logs⟩ calls = ⟨pre ++ [applyCalls F calls], logs⟩
  | [], pre, F, logs, _, _, _ => rfl
  | c :: cs, pre, F, logs, hall, hpre, hF => by
    have hv : validNT id (c.1, c.2) := hall c (List.mem_cons_self c cs)
    have step := ingest_step_nonterminal pre F logs id c.1 c.2 hpre hF hv
    simp only [runIngests, List.foldl_cons, step]
    have IH := runIngests_shape cs pre
      (updActive (sampleOf c.1) c.2 (c.1.status.getD "in_flight") F) logs
      (fun d hd => hall d (List.mem_cons_of_mem c hd)) hpre hF
    simpa only [runIngests, applyCalls, List.foldl_cons] using IH

/-- C2.  For every sequence of valid non-terminal ingest calls for a
fresh id, the resulting ActiveEntity's history is exactly the list of
ingested samples in arrival order: after k calls `history.length = k`,
and `current_position` is the last ingested sample.  The Archive is
untouched. -/
theorem fresh_nonterminal_ingests_history (db : DB) (id : String)
    (calls : List (IngestRequest × Nat))
    (hfreshA : db.active_flights.find? (fun f => f.flight_number == id) = none)
    (hfreshL : db.flight_logs.find? (fun lg => lg.flight_number == id) = none)
    (hall : ∀ c ∈ calls, validNT id c)
    (hne : calls ≠ []) :
    ∃ F, (runIngests db calls).active_flights.find?
          (fun f => f.flight_number == id) = some F
      ∧ F.position_history = calls.map (fun c => sampleOf c.1)
      ∧ F.position_history.length = calls.length
      ∧ (calls.map (fun c => sampleOf c.1)).getLast? = some F.current_position
      ∧ (runIngests db calls).flight_logs = db.flight_logs := by
  match calls, hne with
  | c :: cs, _ =>
    have hpre : ∀ f ∈ db.active_flights, f.flight_number ≠ id := by
      intro f hf
      have := List.find?_eq_none.mp hfreshA f hf
      simpa using this
    have hv : validNT id (c.1, c.2) := hall c (List.mem_cons_self c cs)
    have step := ingest_step_fresh db.active_flights db.flight_logs id c.1
      c.2 hpre hv
    set F0 : ActiveFlight :=
      { flight_number := id, status := c.1.status.getD "in_flight",
        current_position := sampleOf c.1, position_history := [sampleOf c.1],
        created_at := c.2, last_update := c.2 } with hF0
    have hrun : runIngests db (c :: cs)
        = ⟨db.active_flights ++ [applyCalls F0 cs], db.flight_logs⟩ := by
      have h1 : runIngests db (c :: cs)
          = runIngests ⟨db.active_flights ++ [F0], db.flight_logs⟩ cs := by
        simp only [runIngests, List.foldl_cons]
        rw [show (ingest_flight_data db c.1 c.2).1
            = ({ active_flights := db.active_flights ++ [F0],
                 flight_logs := db.flight_logs } : DB) from by rw [step]]
      rw [h1]
      exact runIngests_shape cs db.active_flights F0 db.flight_logs
        (fun d hd => hall d (List.mem_cons_of_mem c hd)) hpre rfl
    refine ⟨applyCalls F0 cs, ?_, ?_, ?_, ?_, ?_⟩
    · rw [hrun]
      exact find?_append_singleton_of_none (find?_fn_eq_none hpre)
        (by simp [applyCalls_flight_number])
    · rw [applyCalls_history]
      simp [hF0]
    · rw [applyCalls_history]
      simp [hF0]
    · have h := applyCalls_current_last cs F0 (by simp [hF0])
      rw [applyCalls_history] at h
      simpa [hF0] using h
    · rw [hrun]

/-- Fixture: a valid first sample for flight PK301. -/
def reqT0 : IngestRequest :=
  { flight_number := some "PK301", latitude := some (JNum.num 31),
    longitude := some (JNum.num 74), altitude := some (JNum.num 1000),
    speed := some (JNum.num 150), heading := none,
    timestamp := some "T0", status := none }

/-- Fixture: a cruise update for PK301. -/
def reqT1 : IngestRequest :=
  { reqT0 with
    altitude := some (JNum.num 35000), speed := some (JNum.num 480),
    timestamp := some "T1", status := some "in_flight" }

/-- Fixture: the terminal call for PK301. -/
def reqLand : IngestRequest :=
  { reqT0 with timestamp := some "T2", status := some "landed" }

/-- Fixture: a valid call for the unrelated flight XX99. -/
def reqOther : IngestRequest :=
  { reqT0 with flight_number := some "XX99" }

/-- Fixture: a request whose latitude is present but not
numeric-coercible. -/
def reqBadLat : IngestRequest :=
  { reqT0 with latitude := some (JNum.nonNumeric "abc") }

/-- Fixture: the empty database. -/
def emptyDB : DB := { active_flights := [], flight_logs := [] }

/-- Fixture: the state after ingesting T0 then T1 for PK301. -/
def dbTwo : DB :=
  (ingest_flight_data (ingest_flight_data emptyDB reqT0 0).1 reqT1 1).1

/-- Fixture: the state after PK301 has landed and been archived. -/
def dbArchived : DB := (ingest_flight_data dbTwo reqLand 2).1

/-- C3 counterexample.  After PK301 is archived it is absent from the
Active set, but one further ingest for PK301 re-creates it there, and a
second terminal ingest inserts a second Archive entry for the same id:
the claimed monotone one-way transition fails on the code. -/
theorem archived_id_reenters_active_cex :
    dbArchived.flight_logs.map (fun lg => lg.flight_number) = ["PK301"]
    ∧ activeIds dbArchived = []
    ∧ activeIds (ingest_flight_data dbArchived reqT0 3).1 = ["PK301"]
    ∧ (ingest_flight_data (ingest_flight_data dbArchived reqT0 3).1
          reqLand 4).1.flight_logs.map (fun lg => lg.flight_number)
        = ["PK301", "PK301"] := by
  decide

lemma flight_number_isSome_of_requiredMissing {r : IngestRequest}
    (h : requiredMissing? r = none) : r.flight_number.isSome := by
  cases hx : r.flight_number with
  | none => simp [requiredMissing?, hx] at h
  | some v => rfl

lemma upsertActive_logs (db : DB) (fn : String) (pos : PositionSample)
    (now : Nat) (st : String) :
    (upsertActive db fn pos now st).flight_logs = db.flight_logs := by
  unfold upsertActive
  cases db.active_flights.find? (fun f => f.flight_number == fn) <;> rfl

lemma activeIds_upsertActive (db : DB) (fn : String) (pos : PositionSample)
    (now : Nat) (st : String) :
    activeIds (upsertActive db fn pos now st) = activeIds db
    ∨ activeIds (upsertActive db fn pos now st) = activeIds db ++ [fn] := by
  unfold upsertActive
  cases hf : db.active_flights.find? (fun f => f.flight_number == fn) with
  | some g =>
    left
    show (updateFirst (fun f => f.flight_number == fn) (updActive pos now st)
        db.active_flights).map (fun f => f.flight_number) = activeIds db
    exact updateFirst_map_fn (g := updActive pos now st) (fun f => rfl) _ _
  | none =>
    right
    simp [activeIds]

lemma archiveIfLanded_logs (db1 : DB) (fn : String) (now : Nat) :
    db1.flight_logs <+: (archiveIfLanded db1 fn now).1.flight_logs := by
  unfold archiveIfLanded
  cases db1.active_flights.find? (fun f => f.flight_number == fn) with
  | some fd => exact ⟨_, rfl⟩
  | none => exact ⟨[], List.append_nil _⟩

lemma ingest_logs_mono (db : DB) (r : IngestRequest) (now : Nat) :
    db.flight_logs <+: (ingest_flight_data db r now).1.flight_logs := by
  cases hm : requiredMissing? r with
  | some f =>
    have hdb : (ingest_flight_data db r now).1 = db := by
      simp [ingest_flight_data, hm]
    rw [hdb]
  | none =>
    cases hs : mkSample? r with
    | none =>
      have hdb : (ingest_flight_data db r now).1 = db := by
        simp [ingest_flight_data, hm, hs]
      rw [hdb]
    | some pos =>
      simp only [ingest_flight_data, hm, hs]
      by_cases hl : (r.status == some "landed") = true
      · rw [if_pos hl]
        have h2 := archiveIfLanded_logs
          (upsertActive db (r.flight_number.getD "") pos now
            (r.status.getD "in_flight")) (r.flight_number.getD "") now
        rw [upsertActive_logs] at h2
        exact h2
      · rw [if_neg hl]
        show db.flight_logs <+: (upsertActive db (r.flight_number.getD "")
          pos now (r.status.getD "in_flight")).flight_logs
        rw [upsertActive_logs]

lemma not_mem_activeIds_of_deleteFirst {l : List ActiveFlight}
    {p : ActiveFlight → Bool} {id : String}
    (h : id ∉ l.map (fun f => f.flight_number)) :
    id ∉ (deleteFirst p l).map (fun f => f.flight_number) := by
  intro hm
  obtain ⟨f, hf, he⟩ := List.mem_map.mp hm
  exact h (he ▸ List.mem_map_of_mem (fun f => f.flight_number)
    (mem_deleteFirst hf))

lemma ingest_preserves_not_active {db : DB} {r : IngestRequest} {now : Nat}
    {id : String} (hr : r.flight_number ≠ some id)
    (h : id ∉ activeIds db) :
    id ∉ activeIds (ingest_flight_data db r now).1 := by
  cases hm : requiredMissing? r with
  | some f =>
    have hdb : (ingest_flight_data db r now).1 = db := by
      simp [ingest_flight_data, hm]
    rw [hdb]; exact h
  | none =>
    cases hs : mkSample? r with
    | none =>
      have hdb : (ingest_flight_data db r now).1 = db := by
        simp [ingest_flight_data, hm, hs]
      rw [hdb]; exact h
    | some pos =>
      obtain ⟨fnv, hfn⟩ := Option.isSome_iff_exists.mp
        (flight_number_isSome_of_requiredMissing hm)
      have hne : id ≠ fnv := fun e => hr (by rw [hfn, e])
      have hup : id ∉ activeIds (upsertActive db (r.flight_number.getD "")
          pos now (r.status.getD "in_flight")) := by
        rcases activeIds_upsertActive db (r.flight_number.getD "") pos now
          (r.status.getD "in_flight") with he | he
        · rw [he]; exact h
        · rw [he, List.mem_append]
          rintro (hmem | hmem)
          · exact h hmem
          · rw [hfn] at hmem
            simp only [Option.getD_some, List.mem_singleton] at hmem
            exact hne hmem
      simp only [ingest_flight_data, hm, hs]
      by_cases hl : (r.status == some "landed") = true
      · rw [if_pos hl]
        unfold archiveIfLanded
        cases hf2 : (upsertActive db (r.flight_number.getD "") pos now
            (r.status.getD "in_flight")).active_flights.find?
            (fun f => f.flight_number == r.flight_number.getD "") with
        | some fd =>
          simp only [activeIds]
          exact not_mem_activeIds_of_deleteFirst hup
        | none => exact hup
      · rw [if_neg hl]
        exact hup

/-- C3 amended.  The Archive is append-only: every sequence of ingest
calls only ever appends to `flight_logs`, so an entry once inserted is
never modified or removed; and an id absent from the Active set stays
absent under any sequence of ingest calls that never carries that id.
(The original claim's "never again present under any further sequence
of operations" fails on the code: re-ingesting an archived id
re-creates it, see the counterexample.) -/
theorem archive_append_only_and_no_reentry (db : DB) (id : String)
    (calls : List (IngestRequest × Nat)) :
    db.flight_logs <+: (runIngests db calls).flight_logs
    ∧ ((∀ c ∈ calls, c.1.flight_number ≠ some id) →
        id ∉ activeIds db → id ∉ activeIds (runIngests db calls)) := by
  induction calls generalizing db with
  | nil => exact ⟨⟨[], List.append_nil _⟩, fun _ h => h⟩
  | cons c cs ih =>
    have h1 := ingest_logs_mono db c.1 c.2
    obtain ⟨h2, h3⟩ := ih (ingest_flight_data db c.1 c.2).1
    have hstep : runIngests db (c :: cs)
        = runIngests (ingest_flight_data db c.1 c.2).1 cs := by
      simp [runIngests]
    rw [hstep]
    refine ⟨h1.trans h2, fun hno hout => ?_⟩
    refine h3 (fun d hd => hno d (List.mem_cons_of_mem c hd)) ?_
    exact ingest_preserves_not_active (hno c (List.mem_cons_self c cs)) hout

/-- Closed witness for the amended C3 theorem at a concrete archived
state and a concrete call sequence avoiding the archived id. -/
theorem archive_append_only_and_no_reentry_witness :
    dbArchived.flight_logs <+:
        (runIngests dbArchived [(reqOther, 5)]).flight_logs
    ∧ "PK301" ∉ activeIds (runIngests dbArchived [(reqOther, 5)]) := by
  have h := archive_append_only_and_no_reentry dbArchived "PK301"
    [(reqOther, 5)]
  exact ⟨h.1, h.2 (by decide) (by decide)⟩

/-- C4 counterexample.  A request whose latitude is present but not
numeric-coercible is answered with the 500 server-error response (the
blanket `except Exception`), not with the 400 validation response the
claim requires; the stores are untouched. -/
theorem malformed_field_is_server_error_cex :
    (ingest_flight_data emptyDB reqBadLat 0).2 = IngestOutcome.serverError
    ∧ IngestOutcome.isBadRequest
        (ingest_flight_data emptyDB reqBadLat 0).2 = false
    ∧ (ingest_flight_data emptyDB reqBadLat 0).1 = emptyDB := by
  decide

/-- C4 amended.  A request missing a required field is rejected with
the 400 response naming the first missing field and mutates nothing; a
request whose fields are all present but whose numeric fields are not
all coercible makes `float()` raise, which the handler answers with the
500 response, again mutating nothing.  (The original claim fails only
in the malformed case's status class: 500 instead of 4xx, see the
counterexample.) -/
theorem ingest_validation_no_mutation (db : DB) (r : IngestRequest)
    (now : Nat) :
    (∀ f, requiredMissing? r = some f →
      ingest_flight_data db r now
        = (db, .badRequest ("Missing required field: " ++ f)))
    ∧ (requiredMissing? r = none → mkSample? r = none →
      ingest_flight_data db r now = (db, .serverError)) := by
  constructor
  · intro f hf
    simp [ingest_flight_data, hf]
  · intro h1 h2
    simp [ingest_flight_data, h1, h2]

/-- Closed witness for the amended C4 theorem: one concrete missing
field, one concrete malformed field. -/
theorem ingest_validation_no_mutation_witness :
    ingest_flight_data emptyDB { reqT0 with latitude := none } 0
      = (emptyDB, .badRequest "Missing required field: latitude")
    ∧ ingest_flight_data emptyDB reqBadLat 0 = (emptyDB, .serverError) :=
  ⟨(ingest_validation_no_mutation emptyDB { reqT0 with latitude := none } 0).1
      "latitude" (by decide),
   (ingest_validation_no_mutation emptyDB reqBadLat 0).2 (by decide)
      (by decide)⟩

/-- Fixture: the sample reqT0 carries. -/
def sampleT0 : PositionSample :=
  { latitude := 31, longitude := 74, altitude := 1000, speed := 150,
    heading := 0, timestamp := "T0" }

/-- Fixture: the sample reqT1 carries. -/
def sampleT1 : PositionSample :=
  { latitude := 31, longitude := 74, altitude := 35000, speed := 480,
    heading := 0, timestamp := "T1" }

/-- Fixture: the sample reqLand carries. -/
def sampleT2 : PositionSample :=
  { latitude := 31, longitude := 74, altitude := 1000, speed := 150,
    heading := 0, timestamp := "T2" }

/-- Fixture: the active document of dbTwo. -/
def flightTwo : ActiveFlight :=
  { flight_number := "PK301", status := "in_flight",
    current_position := sampleT1, position_history := [sampleT0, sampleT1],
    created_at := 0, last_update := 1 }

/-- Fixture: the archived document of dbArchived. -/
def logOne : FlightLog :=
  { flight_number := "PK301",
    position_history := [sampleT0, sampleT1, sampleT2],
    flight_start := 0, flight_end := 2, total_positions := 3 }

/-- Closed witness for the C1 theorem at the concrete two-sample state. -/
theorem landed_ingest_archives_witness :
    (ingest_flight_data dbTwo reqLand 2).1.active_flights.find?
        (fun f => f.flight_number == "PK301") = none
    ∧ (ingest_flight_data dbTwo reqLand 2).1.flight_logs
        = dbTwo.flight_logs ++
          [{ flight_number := "PK301",
             position_history := flightTwo.position_history ++ [sampleT2],
             flight_start := flightTwo.created_at,
             flight_end := 2,
             total_positions := flightTwo.position_history.length + 1 }]
    ∧ (ingest_flight_data dbTwo reqLand 2).2
        = .ok "Flight landed and moved to logs" "PK301" :=
  landed_ingest_archives dbTwo reqLand 2 "PK301" flightTwo sampleT2
    (by decide) (by decide) (by decide) (by decide) (by decide) (by decide)

/-- Closed witness for the C2 theorem at a concrete two-call sequence. -/
theorem fresh_nonterminal_ingests_history_witness :
    (runIngests emptyDB [(reqT0, 0), (reqT1, 1)]).active_flights.find?
        (fun f => f.flight_number == "PK301") = some flightTwo
    ∧ flightTwo.position_history
        = [((reqT0, 0) : IngestRequest × Nat), (reqT1, 1)].map
            (fun c => sampleOf c.1)
    ∧ (runIngests emptyDB [(reqT0, 0), (reqT1, 1)]).flight_logs
        = emptyDB.flight_logs := by
  obtain ⟨F, h1, h2, h3, h4, h5⟩ := fresh_nonterminal_ingests_history emptyDB
    "PK301" [(reqT0, 0), (reqT1, 1)] (by decide) (by decide) (by decide)
    (by decide)
  have hF : F = flightTwo := by
    have hcalc : (runIngests emptyDB
        [(reqT0, 0), (reqT1, 1)]).active_flights.find?
        (fun f => f.flight_number == "PK301") = some flightTwo := by decide
    exact Option.some_inj.mp (h1.symm.trans hcalc)
  exact ⟨hF ▸ h1, hF ▸ h2, h5⟩

/-- C5.  `track` without a timestamp reads the Active set first (the
response is then built from the active document alone, independent of
the Archive), falls back to the Archive where the reported status is
`completed` and the current position absent whatever was recorded
before archival, and answers the `Flight not found` 404 when the id is
in neither store. -/
theorem track_lookup_order (db : DB) (id : String) :
    (∀ f, db.active_flights.find? (fun g => g.flight_number == id) = some f →
      track_flight db id none
        = .view id f.status (some f.current_position) f.position_history
            f.position_history.length)
    ∧ (∀ lg, db.active_flights.find? (fun g => g.flight_number == id) = none →
        db.flight_logs.find? (fun g => g.flight_number == id) = some lg →
        track_flight db id none
          = .view id "completed" none lg.position_history
              lg.position_history.length)
    ∧ (db.active_flights.find? (fun g => g.flight_number == id) = none →
        db.flight_logs.find? (fun g => g.flight_number == id) = none →
        track_flight db id none = .notFound "Flight not found") := by
  refine ⟨?_, ?_, ?_⟩
  · intro f hf
    simp [track_flight, lookupFlight, truthyArg, hf]
  · intro lg ha hl
    simp [track_flight, lookupFlight, truthyArg, ha, hl]
  · intro ha hl
    simp [track_flight, lookupFlight, truthyArg, ha, hl]

/-- Closed witness for the C5 theorem: active hit, archive-only hit,
and unknown id, on concrete states. -/
theorem track_lookup_order_witness :
    track_flight dbTwo "PK301" none
      = .view "PK301" flightTwo.status (some flightTwo.current_position)
          flightTwo.position_history flightTwo.position_history.length
    ∧ track_flight dbArchived "PK301" none
      = .view "PK301" "completed" none logOne.position_history
          logOne.position_history.length
    ∧ track_flight dbArchived "ZZ" none = .notFound "Flight not found" :=
  ⟨(track_lookup_order dbTwo "PK301").1 flightTwo (by decide),
   (track_lookup_order dbArchived "PK301").2.1 logOne (by decide) (by decide),
   (track_lookup_order dbArchived "ZZ").2.2 (by decide) (by decide)⟩

/-- C6 counterexample.  A supplied empty timestamp string is falsy
under the handler's `if timestamp:` test: on the archived PK301, whose
history holds no sample with timestamp equal to the empty string, the
call returns the full 200 tracking view — neither the point sample nor
the NotFound the claim requires for every timestamp string. -/
theorem empty_timestamp_returns_view_cex :
    track_flight dbArchived "PK301" (some "")
      = .view "PK301" "completed" none logOne.position_history
          logOne.position_history.length
    ∧ logOne.position_history.find? (fun q => q.timestamp == "") = none := by
  decide

/-- C6 amended.  With a non-empty timestamp argument, `track` on an id
found in either store returns the first history sample whose stored
timestamp string equals the argument exactly (everything before it
mismatches), as a point response carrying the id; the returned sample
belongs to that entity's own history; with no exact match it answers
the timestamp-specific 404, which differs from the unknown-id 404.  A
supplied empty timestamp is falsy under the handler's `if timestamp:`
test and yields the full tracking view instead (see the
counterexample). -/
theorem track_at_timestamp (db : DB) (id T : String) (st : String)
    (cur : Option PositionSample) (hist : List PositionSample)
    (hfound : lookupFlight db id = some (st, cur, hist)) :
    (T ≠ "" →
      (∀ p, hist.find? (fun q => q.timestamp == T) = some p →
        track_flight db id (some T) = .positionAt id T p
        ∧ p ∈ hist ∧ p.timestamp = T
        ∧ ∃ pre post, hist = pre ++ p :: post ∧ ∀ q ∈ pre, q.timestamp ≠ T)
      ∧ (hist.find? (fun q => q.timestamp == T) = none →
        track_flight db id (some T)
          = .notFound "No position data for that timestamp"))
    ∧ (T = "" →
      track_flight db id (some T) = .view id st cur hist hist.length)
    ∧ TrackResult.notFound "No position data for that timestamp"
        ≠ TrackResult.notFound "Flight not found" := by
  refine ⟨fun hT => ⟨?_, ?_⟩, fun hT => ?_, by decide⟩
  · intro p hp
    refine ⟨by simp [track_flight, truthyArg, hfound, hT, hp],
      List.mem_of_find?_eq_some hp, by simpa using List.find?_some hp, ?_⟩
    obtain ⟨hpb, pre, post, he, hall⟩ := List.find?_eq_some.mp hp
    exact ⟨pre, post, he, fun q hq => by simpa using hall q hq⟩
  · intro hp
    simp [track_flight, truthyArg, hfound, hT, hp]
  · subst hT
    simp [track_flight, truthyArg, hfound]

/-- Closed witness for the amended C6 theorem on the concrete archived
state: an exact timestamp hit, a miss, and the empty-timestamp view. -/
theorem track_at_timestamp_witness :
    track_flight dbArchived "PK301" (some "T1")
      = .positionAt "PK301" "T1" sampleT1
    ∧ track_flight dbArchived "PK301" (some "T9")
      = .notFound "No position data for that timestamp"
    ∧ track_flight dbArchived "PK301" (some "")
      = .view "PK301" "completed" none [sampleT0, sampleT1, sampleT2] 3 := by
  have h1 := track_at_timestamp dbArchived "PK301" "T1" "completed" none
    [sampleT0, sampleT1, sampleT2] (by decide)
  have h9 := track_at_timestamp dbArchived "PK301" "T9" "completed" none
    [sampleT0, sampleT1, sampleT2] (by decide)
  have hE := track_at_timestamp dbArchived "PK301" "" "completed" none
    [sampleT0, sampleT1, sampleT2] (by decide)
  exact ⟨((h1.1 (by decide)).1 sampleT1 (by decide)).1,
    (h9.1 (by decide)).2 (by decide), hE.2.1 rfl⟩

/-- Fixture: a valid non-terminal request keyed by the empty string. -/
def reqEmptyId : IngestRequest := { reqT0 with flight_number := some "" }

/-- C10.  Validation checks only field presence, never id non-emptiness:
a valid non-terminal request whose `flight_number` equals the empty
string succeeds with the 200 ingest response and leaves an ActiveEntity
keyed by the empty string in the Active set. -/
theorem empty_id_accepted (db : DB) (r : IngestRequest) (now : Nat)
    (hv : validNT "" (r, now)) :
    (ingest_flight_data db r now).2
      = .ok "Flight data ingested successfully" ""
    ∧ ((ingest_flight_data db r now).1.active_flights.find?
        (fun g => g.flight_number == "")).isSome := by
  have hfn : r.flight_number = some "" := hv.1
  have hmiss : requiredMissing? r = none := hv.2.1
  have hnt : (r.status == some "landed") = false := by
    simpa using (hv.2.2.2 : r.status ≠ some "landed")
  obtain ⟨s, hs⟩ := Option.isSome_iff_exists.mp (hv.2.2.1 :
    (mkSample? r).isSome)
  cases hf : db.active_flights.find? (fun g => g.flight_number == "") with
  | none =>
    have step := ingest_step_fresh db.active_flights db.flight_logs "" r now
      (fun f hf2 => by simpa using List.find?_eq_none.mp hf f hf2) hv
    rw [step]
    refine ⟨rfl, ?_⟩
    rw [find?_append_singleton_of_none (find?_fn_eq_none
      (fun f hf2 => by simpa using List.find?_eq_none.mp hf f hf2))
      (by simp)]
    rfl
  | some F =>
    have hupd := find?_updateFirst (g := updActive s now
      (r.status.getD "in_flight")) (fun f => rfl) "" db.active_flights
    rw [hf] at hupd
    simp only [ingest_flight_data, upsertActive, hmiss, hs, hfn,
      Option.getD_some, hf, hnt, Bool.false_eq_true, if_neg, not_false_iff]
    exact ⟨trivial, by rw [hupd]; rfl⟩

/-- Closed witness for the C10 theorem at the concrete empty-id
request. -/
theorem empty_id_accepted_witness :
    (ingest_flight_data emptyDB reqEmptyId 0).2
      = .ok "Flight data ingested successfully" ""
    ∧ ((ingest_flight_data emptyDB reqEmptyId 0).1.active_flights.find?
        (fun g => g.flight_number == "")).isSome :=
  empty_id_accepted emptyDB reqEmptyId 0 (by decide)

/-- Fixture: a state holding two archived entries (PK301 archived
twice through re-ingestion). -/
def dbTwoLogs : DB :=
  (ingest_flight_data (ingest_flight_data dbArchived reqT0 3).1 reqLand 4).1

/-- C9 counterexample.  The logs handler reads no limit parameter: with
two archived entries and `limit=1` supplied it still returns both
entries, refuting "at most L entries returned". -/
theorem logs_limit_ignored_cex :
    ¬ ((get_flight_logs dbTwoLogs [("limit", "1")]).1.length ≤ 1) := by
  decide

/-- C9 amended.  The logs endpoint accepts no limit parameter: for
every state and any supplied query parameters it returns at most 50
entries (the hard-coded `limit(50)`), the returned count equals the
number of entries returned, and the response does not depend on the
parameters at all.  (The original claim's "limit L supplied implies at
most L entries" fails, see the counterexample.) -/
theorem logs_bounded_and_args_ignored (db : DB)
    (args args2 : List (String × String)) :
    (get_flight_logs db args).1.length ≤ 50
    ∧ (get_flight_logs db args).2 = (get_flight_logs db args).1.length
    ∧ get_flight_logs db args = get_flight_logs db args2 := by
  refine ⟨?_, rfl, rfl⟩
  show (db.flight_logs.take 50).length ≤ 50
  rw [List.length_take]
  exact min_le_left _ _

/-- Fixture: search arguments carrying only an id criterion. -/
def argsOnlyFn (pat : String) : SearchArgs :=
  { flight_number := some pat, status := none, min_altitude := none,
    max_altitude := none, min_speed := none, max_speed := none }

/-- C8 counterexample.  The id criterion is a Mongo regex, not a plain
substring: `P.3` is not a case-insensitive substring of `PK301`, yet
`hybrid_search` matches the active flight PK301 because `.` matches any
character. -/
theorem id_match_regex_vs_substring_cex :
    isCISubstringB "P.3" "PK301" = false
    ∧ hybrid_search dbTwo (argsOnlyFn "P.3")
        = .ok [SearchHit.active flightTwo] 1 := by
  decide

lemma charMatch_of_no_dot {pc : Char} (h : pc ≠ '.') (c : Char) :
    charMatch pc c = (pc.toLower == c.toLower) := by
  simp [charMatch, h]

lemma matchHere_eq_ciPrefixB :
    ∀ {ps : List Char}, (∀ c ∈ ps, c ≠ '.') →
      ∀ t, matchHere ps t = ciPrefixB ps t
  | [], _, t => by cases t <;> rfl
  | pc :: ps, h, [] => rfl
  | pc :: ps, h, c :: cs => by
    simp only [matchHere, ciPrefixB,
      charMatch_of_no_dot (h pc (List.mem_cons_self pc ps)) c,
      matchHere_eq_ciPrefixB (fun d hd => h d (List.mem_cons_of_mem pc hd)) cs]

/-- C8 amended.  The id criterion is matched as a case-insensitive
regular-expression search (`$regex` with option `i`); for criterion
strings containing no regex metacharacter (none of `. * + ? ^ $ ( ) [
] \x7b \x7d | \\`, so that the pattern is a pure literal for PCRE as
well as for this model) the match coincides with case-insensitive
substring matching, but not for arbitrary criterion strings (see the
counterexample). -/
theorem id_match_eq_substring_of_no_metachar (pat s : String)
    (h : ∀ c ∈ pat.data, c ∉ regexMetachars) :
    regexFind pat s = isCISubstringB pat s := by
  unfold regexFind isCISubstringB
  have hdot : ∀ c ∈ pat.data, c ≠ '.' := fun c hc he =>
    h c hc (he ▸ (by decide : ('.' : Char) ∈ regexMetachars))
  have he : (fun t => matchHere pat.data t) = fun t => ciPrefixB pat.data t :=
    funext (matchHere_eq_ciPrefixB hdot)
  rw [he]

/-- Closed witness for the amended C8 theorem on a metachar-free
criterion. -/
theorem id_match_eq_substring_of_no_metachar_witness :
    regexFind "pk3" "PK301" = isCISubstringB "pk3" "PK301" :=
  id_match_eq_substring_of_no_metachar "pk3" "PK301" (by decide)

/-- Fixture: a valid first sample for flight AB1. -/
def reqAB : IngestRequest := { reqT0 with flight_number := some "AB1" }

/-- Fixture: the state holding only the active flight AB1. -/
def dbAB : DB := (ingest_flight_data emptyDB reqAB 0).1

/-- Fixture: the active document of dbAB. -/
def flightAB : ActiveFlight :=
  { flight_number := "AB1", status := "in_flight",
    current_position := sampleT0, position_history := [sampleT0],
    created_at := 0, last_update := 0 }

/-- C7 counterexample.  With the single active flight AB1 and the id
criterion `A.1`, the claim's conjunction with substring id semantics
predicts an empty result (`A.1` is not a substring of `AB1`), but the
search returns the flight: the id criterion is a regex, not a
substring. -/
theorem search_id_criterion_not_substring_cex :
    hybrid_search dbAB (argsOnlyFn "A.1") = .ok [SearchHit.active flightAB] 1
    ∧ isCISubstringB "A.1" "AB1" = false := by
  decide

/-- C7 amended.  When every numeric criterion parses, the Active set is
filtered by the conjunction of all supplied criteria — the id criterion
matched as a case-insensitive regex on the trimmed argument, the status
criterion exactly, and the altitude/speed bounds inclusively on the
current position; the Archive is additionally scanned if and only if
the status criterion is absent or equals `completed`, applying only the
id criterion and tagging every archive hit `completed`; the results are
the Active matches followed by the Archive matches, and the count is
their number.  When some numeric criterion fails to parse, the whole
call is the 400 response.  The success branch is stated over id
criteria inside the modelled regex fragment (literals and the `.`
wildcard), on which the matcher agrees with the program's regex
engine.  (The original claim's plain-substring id semantics fails, see
the counterexample.) -/
theorem hybrid_search_structure (db : DB) (args : SearchArgs) :
    (∀ minAlt maxAlt minSpd maxSpd,
      (∀ pat, args.flight_number = some pat → modelledPattern (stripWS pat)) →
      parseArg? args.min_altitude = some minAlt →
      parseArg? args.max_altitude = some maxAlt →
      parseArg? args.min_speed = some minSpd →
      parseArg? args.max_speed = some maxSpd →
      ∃ res, hybrid_search db args = .ok res res.length
        ∧ res = (db.active_flights.filter (fun f =>
              (match args.flight_number with
               | none => true
               | some pat => regexFind (stripWS pat) f.flight_number)
              && (match args.status with
                  | none => true
                  | some st => f.status == st)
              && (match minAlt with
                  | none => true
                  | some m => decide (m ≤ f.current_position.altitude))
              && (match maxAlt with
                  | none => true
                  | some m => decide (f.current_position.altitude ≤ m))
              && (match minSpd with
                  | none => true
                  | some m => decide (m ≤ f.current_position.speed))
              && (match maxSpd with
                  | none => true
                  | some m => decide (f.current_position.speed ≤ m)))).map
              SearchHit.active
            ++ (if args.status.isNone || (args.status == some "completed")
                then (db.flight_logs.filter (fun lg =>
                    match args.flight_number with
                    | none => true
                    | some pat => regexFind (stripWS pat) lg.flight_number)).map
                  (fun lg => SearchHit.archived lg "completed")
                else []))
    ∧ ((parseArg? args.min_altitude = none
        ∨ parseArg? args.max_altitude = none
        ∨ parseArg? args.min_speed = none
        ∨ parseArg? args.max_speed = none) →
        hybrid_search db args = .badRequest) := by
  constructor
  · intro minAlt maxAlt minSpd maxSpd hpat h1 h2 h3 h4
    simp only [hybrid_search, h1, h2, h3, h4]
    refine ⟨_, rfl, ?_⟩
    have hact : List.filter (evalActiveQuery
        { fn_regex := args.flight_number.map stripWS,
          status_eq := args.status, alt_gte := minAlt, alt_lte := maxAlt,
          spd_gte := minSpd, spd_lte := maxSpd }) db.active_flights
        = db.active_flights.filter (fun f =>
            (match args.flight_number with
             | none => true
             | some pat => regexFind (stripWS pat) f.flight_number)
            && (match args.status with
                | none => true
                | some st => f.status == st)
            && (match minAlt with
                | none => true
                | some m => decide (m ≤ f.current_position.altitude))
            && (match maxAlt with
                | none => true
                | some m => decide (f.current_position.altitude ≤ m))
            && (match minSpd with
                | none => true
                | some m => decide (m ≤ f.current_position.speed))
            && (match maxSpd with
                | none => true
                | some m => decide (f.current_position.speed ≤ m))) := by
      refine List.filter_congr fun f hf => ?_
      cases args.flight_number <;> rfl
    have harch : (fun lg : FlightLog =>
          match args.flight_number.map stripWS with
          | none => true
          | some pat => regexFind pat lg.flight_number)
        = fun lg : FlightLog =>
            match args.flight_number with
            | none => true
            | some pat => regexFind (stripWS pat) lg.flight_number := by
      funext lg
      cases args.flight_number <;> rfl
    rw [hact, harch]
    by_cases hc : (args.status.isNone || (args.status == some "completed")) = true
    · rw [if_pos hc, if_pos hc]
    · rw [if_neg hc, if_neg hc, List.append_nil]
  · intro h
    cases hA : parseArg? args.min_altitude with
    | none => simp [hybrid_search, hA]
    | some a =>
      cases hB : parseArg? args.max_altitude with
      | none => simp [hybrid_search, hA, hB]
      | some b =>
        cases hC : parseArg? args.min_speed with
        | none => simp [hybrid_search, hA, hB, hC]
        | some c =>
          cases hD : parseArg? args.max_speed with
          | none => simp [hybrid_search, hA, hB, hC, hD]
          | some d =>
            exfalso
            rcases h with h | h | h | h
            · rw [hA] at h; exact Option.noConfusion h
            · rw [hB] at h; exact Option.noConfusion h
            · rw [hC] at h; exact Option.noConfusion h
            · rw [hD] at h; exact Option.noConfusion h

/-- Fixture: search arguments with an id criterion and a parsable
minimum altitude. -/
def argsW : SearchArgs :=
  { flight_number := some "pk", status := none,
    min_altitude := some (JNum.num 500), max_altitude := none,
    min_speed := none, max_speed := none }

/-- Fixture: the same search arguments with a minimum altitude that is
not numeric-coercible. -/
def argsBad : SearchArgs :=
  { argsW with min_altitude := some (JNum.nonNumeric "x1") }

/-- Closed witness for the amended C7 theorem: one fully-parsed search
over the concrete two-sample state, and one unparsable numeric
criterion. -/
theorem hybrid_search_structure_witness :
    hybrid_search dbTwo argsW = .ok [SearchHit.active flightTwo] 1
    ∧ hybrid_search dbTwo argsBad = .badRequest := by
  obtain ⟨hok, hbad⟩ := hybrid_search_structure dbTwo argsW
  obtain ⟨res, hres, hresEq⟩ := hok (some 500) none none none
    (fun pat hp => by
      obtain rfl : pat = "pk" :=
        (Option.some_inj.mp (hp : some "pk" = some pat)).symm
      decide)
    (by decide) (by decide) (by decide) (by decide)
  have hres2 : res = [SearchHit.active flightTwo] := by
    rw [hresEq]; decide
  refine ⟨?_, ?_⟩
  · rw [hres, hres2]
    rfl
  · exact (hybrid_search_structure dbTwo argsBad).2 (Or.inl (by decide))

end FlightTracker
